import Mathlib

/-!
# Verification of the inteliform-backend conversation-driven form engine

Shallow embedding of the repository's core logic:

* `services/formsDatabase.js` — the verified-forms registry
  (`VERIFIED_GOVERNMENT_FORMS`);
* `services/aiService.js` (second document of `services/formsDatabase.js`
  in this source snapshot) — the LangChain engine `processUserMessage` and
  the pure validator `validateFieldInput`;
* `services/sessionService.js` — `LangChainSession`, `getSession`,
  `cleanupSessions`;
* `server.js` (the V3 monolith) — `universalFallback`,
  `analyzeUniversalTextResponse`, `generateUniversalFormDetails`,
  `generateFirstQuestion`, `validateField`, `processConversation`.

JavaScript strings are modelled over their character lists; the JS string
primitives used by the code (`trim`, `toLowerCase`, `includes`,
`replace(/\D/g,'')`) are embedded for the ASCII fragment the code
exercises.  Async LLM calls are modelled as oracle parameters
(`Option …`, with `none` standing for a thrown/again-timed-out call, which
the source catches).  Presentation-only metadata of the registry
(documents, fees, processing time, websites) does not feed any control
flow and is not part of the model.
-/

namespace Inteliform

/-! ## JS string primitives (ASCII fragment) -/

/-- The JS whitespace characters relevant here (ASCII fragment of `\s`). -/
def isSpaceJS (c : Char) : Bool :=
  c == ' ' || c == '\t' || c == '\n' || c == '\r' ||
  c == (Char.ofNat 11) || c == (Char.ofNat 12)

/-- Embeds `String.prototype.trim` on the character list. -/
def jsTrimList (l : List Char) : List Char :=
  ((l.dropWhile isSpaceJS).reverse.dropWhile isSpaceJS).reverse

/-- Embeds `String.prototype.trim`. -/
def jsTrim (s : String) : String := ⟨jsTrimList s.data⟩

/-- Embeds `String.prototype.toLowerCase` (ASCII). -/
def jsToLower (s : String) : String := ⟨s.data.map Char.toLower⟩

/-- Is `pre` a prefix of `l`? (helper for `includes`). -/
def listStartsWith : List Char → List Char → Bool
  | [], _ => true
  | _ :: _, [] => false
  | a :: as, b :: bs => a == b && listStartsWith as bs

/-- Does `hay` contain `need` as a contiguous sublist?
(`String.prototype.includes`). -/
def listContainsSub (hay need : List Char) : Bool :=
  match hay with
  | [] => need.isEmpty
  | _ :: t => listStartsWith need hay || listContainsSub t need

/-- Embeds `s.includes(sub)`. -/
def strIncludes (s sub : String) : Bool := listContainsSub s.data sub.data

/-- Embeds `userInput.replace(/\D/g, '')`: keep only the decimal digits. -/
def stripNonDigits (s : String) : String := ⟨s.data.filter Char.isDigit⟩

/-- The regex `/^[6-9]\d{9}$/` from the phone validators. -/
def phoneRegexTest (s : String) : Bool :=
  match s.data with
  | c :: rest => ('6' ≤ c && c ≤ '9') && rest.length == 9 && rest.all Char.isDigit
  | [] => false

/-- The regex `/^\d{2}\/\d{2}\/\d{4}$/` from `validateField` (date case). -/
def dateRegexTest (s : String) : Bool :=
  match s.data with
  | [a, b, s1, c, d, s2, e, f, g, h] =>
      a.isDigit && b.isDigit && s1 == '/' && c.isDigit && d.isDigit &&
      s2 == '/' && e.isDigit && f.isDigit && g.isDigit && h.isDigit
  | _ => false

/-- Split a character list on a separator character (as `String.split`). -/
def splitOnChar (sep : Char) : List Char → List (List Char)
  | [] => [[]]
  | c :: rest =>
      match splitOnChar sep rest with
      | h :: t => if c == sep then [] :: h :: t else (c :: h) :: t
      | [] => if c == sep then [[], []] else [[c]]

/-- Character class `[^\s@]` of the email regex. -/
def emailOkChar (c : Char) : Bool := !(isSpaceJS c) && c != '@'

/-- After the `@`, the regex `[^\s@]+\.[^\s@]+` demands a dot that has at
least one character on each side (the surrounding characters may
themselves be dots, which `[^\s@]` admits). -/
def emailInteriorDot (l : List Char) : Bool :=
  match l with
  | [] => false
  | _ :: t => t.dropLast.contains '.'

/-- The regex `/^[^\s@]+@[^\s@]+\.[^\s@]+$/` from the email validators:
exactly one `@`, a nonempty space-free local part, and after the `@` a
space-free part with an interior dot. -/
def emailRegexTest (s : String) : Bool :=
  match splitOnChar '@' s.data with
  | [a, b] => !a.isEmpty && a.all emailOkChar && b.all emailOkChar && emailInteriorDot b
  | _ => false

/-- Embeds `Array.prototype.join(', ')`. -/
def joinComma : List String → String
  | [] => ""
  | [x] => x
  | x :: y :: rest => x ++ ", " ++ joinComma (y :: rest)

/-! ## Field definitions and the registry (`formsDatabase.js`) -/

/-- A field definition as it appears in the forms databases:
`{ name, question, type, options, required }`.  Fields written without a
`required:`/`options:` key in the source are embedded with `required :=
false` / `options := []` (JS `undefined` is falsy / absent). -/
structure Field where
  name : String
  question : String
  type : String
  options : List String
  required : Bool
deriving Repr, DecidableEq

/-- A verified form schema: identifier-keyed metadata plus the ordered
field list (`verified_fields`). -/
structure GovForm where
  name : String
  authority : String
  verified_fields : List Field
deriving Repr, DecidableEq

/-! ## The field validator (`validateFieldInput`, aiService.js) -/

/-- The result shape `{ valid, value, error }` of `validateFieldInput`
(the early return for optional blank input carries no `error` key:
modelled as `none`). -/
structure VRes where
  valid : Bool
  value : String
  error : Option String
deriving Repr, DecidableEq

/-- Embeds `validateFieldInput(field, userInput)` from aiService.js, translated
branch by branch. -/
def validateFieldInput (field : Field) (userInput : String) : VRes :=
  if field.required == false && (jsTrim userInput).data.isEmpty then
    ⟨true, userInput, none⟩
  else if field.type == "email" then
    let ok := emailRegexTest userInput
    ⟨ok, userInput,
      if ok then none else some "Please provide a valid email address (like name@example.com)"⟩
  else if field.type == "phone" then
    let cleanPhone := stripNonDigits userInput
    let ok := phoneRegexTest cleanPhone
    ⟨ok, cleanPhone,
      if ok then none else some "Please provide a valid 10-digit Indian mobile number"⟩
  else if field.type == "choice" then
    let ok := field.options.any (fun opt =>
      strIncludes (jsToLower userInput) (jsToLower opt) ||
      strIncludes (jsToLower opt) (jsToLower userInput))
    ⟨ok, userInput,
      if ok then none else some ("Please choose from: " ++ joinComma field.options)⟩
  else
    let t := jsTrim userInput
    ⟨decide (0 < t.data.length), t,
      if 0 < t.data.length then none else some "This field is required"⟩

/-- Embeds `validateField(field, value)` from server.js (the V3 helper): returns
only a boolean. -/
def validateField (field : Field) (value : String) : Bool :=
  if field.required == false && (jsTrim value).data.isEmpty then true
  else if field.type == "email" then emailRegexTest value
  else if field.type == "phone" then phoneRegexTest (stripNonDigits value)
  else if field.type == "date" then dateRegexTest value
  else decide (0 < (jsTrim value).data.length)

/-! ## The verified forms registry (`VERIFIED_GOVERNMENT_FORMS`) -/

/-- Embeds `pan_card_application` entry. -/
def panCardApplicationForm : GovForm :=
  { name := "PAN Card Application"
    authority := "Income Tax Department, Government of India"
    verified_fields := [
      ⟨"applicant_category", "What category of applicant are you?", "choice",
        ["Individual", "HUF", "Company", "Firm", "Trust", "Association of Persons"], true⟩,
      ⟨"full_name", "What is your full name? (As per Aadhaar/ID proof)", "text", [], true⟩,
      ⟨"father_name", "What is your father's full name?", "text", [], true⟩,
      ⟨"date_of_birth", "What is your date of birth? (DD/MM/YYYY format)", "text", [], true⟩,
      ⟨"mobile_number", "What is your mobile number?", "phone", [], true⟩,
      ⟨"email_address", "What is your email address?", "email", [], true⟩,
      ⟨"address", "What is your complete residential address?", "textarea", [], true⟩,
      ⟨"id_proof", "Which ID proof are you submitting?", "choice",
        ["Aadhaar Card", "Voter ID", "Passport", "Driving License"], true⟩,
      ⟨"address_proof", "Which address proof are you submitting?", "choice",
        ["Aadhaar Card", "Electricity Bill", "Water Bill", "Passport", "Rental Agreement"], true⟩] }

/-- Embeds `passport_application` entry. -/
def passportApplicationForm : GovForm :=
  { name := "Passport Application"
    authority := "Passport Seva Kendra, Ministry of External Affairs"
    verified_fields := [
      ⟨"application_type", "What type of passport application are you submitting?", "choice",
        ["Fresh Passport", "Reissue of Passport", "Tatkal Passport"], true⟩,
      ⟨"full_name", "What is your full name? (As per documents)", "text", [], true⟩,
      ⟨"date_of_birth", "What is your date of birth? (DD/MM/YYYY format)", "text", [], true⟩,
      ⟨"place_of_birth", "What is your place of birth? (City and State/Country)", "text", [], true⟩,
      ⟨"gender", "What is your gender?", "choice", ["Male", "Female", "Other"], true⟩,
      ⟨"marital_status", "What is your marital status?", "choice",
        ["Single", "Married", "Divorced", "Widowed"], true⟩,
      ⟨"address", "What is your present residential address?", "textarea", [], true⟩,
      ⟨"mobile_number", "What is your mobile number?", "phone", [], true⟩,
      ⟨"email_address", "What is your email address?", "email", [], true⟩,
      ⟨"emergency_contact", "What is your emergency contact name and number?", "text", [], true⟩] }

/-- Embeds `driving_license` entry. -/
def drivingLicenseForm : GovForm :=
  { name := "Driving License Application"
    authority := "Regional Transport Office (RTO)"
    verified_fields := [
      ⟨"license_type", "What type of driving license are you applying for?", "choice",
        ["Learner's License", "Permanent Driving License", "International Driving Permit"], true⟩,
      ⟨"vehicle_category", "For which vehicle category?", "choice",
        ["Two Wheeler", "Light Motor Vehicle (Car)", "Commercial Vehicle", "Heavy Vehicle"], true⟩,
      ⟨"full_name", "What is your full name?", "text", [], true⟩,
      ⟨"father_name", "What is your father's/husband's name?", "text", [], true⟩,
      ⟨"date_of_birth", "What is your date of birth? (DD/MM/YYYY format)", "text", [], true⟩,
      ⟨"blood_group", "What is your blood group?", "choice",
        ["A+", "A-", "B+", "B-", "AB+", "AB-", "O+", "O-"], true⟩,
      ⟨"address", "What is your permanent address?", "textarea", [], true⟩,
      ⟨"mobile_number", "What is your mobile number?", "phone", [], true⟩,
      ⟨"email_address", "What is your email address?", "email", [], true⟩] }

/-- Embeds `voter_id` entry. -/
def voterIdForm : GovForm :=
  { name := "Voter ID Registration"
    authority := "Election Commission of India"
    verified_fields := [
      ⟨"full_name", "What is your full name?", "text", [], true⟩,
      ⟨"relative_name", "What is your father's/mother's/husband's name?", "text", [], true⟩,
      ⟨"date_of_birth", "What is your date of birth? (DD/MM/YYYY format)", "text", [], true⟩,
      ⟨"gender", "What is your gender?", "choice", ["Male", "Female", "Other"], true⟩,
      ⟨"current_address", "What is your current residential address?", "textarea", [], true⟩,
      ⟨"permanent_address", "What is your permanent address? (If different from current)",
        "textarea", [], false⟩,
      ⟨"mobile_number", "What is your mobile number?", "phone", [], true⟩,
      ⟨"email_address", "What is your email address?", "email", [], false⟩,
      ⟨"previous_voter_id", "Do you have a previous Voter ID? If yes, provide the number",
        "text", [], false⟩] }

/-- Embeds `fssai_food_license` entry. -/
def fssaiFoodLicenseForm : GovForm :=
  { name := "FSSAI Food Safety License"
    authority := "Food Safety and Standards Authority of India (FSSAI)"
    verified_fields := [
      ⟨"license_type", "What type of FSSAI license do you need?", "choice",
        ["Basic Registration (<₹12 lakh turnover)", "State License (₹12 lakh - ₹20 crore)",
         "Central License (>₹20 crore)"], true⟩,
      ⟨"business_name", "What is the exact name of your food business?", "text", [], true⟩,
      ⟨"owner_name", "What is the full name of the business owner/proprietor?", "text", [], true⟩,
      ⟨"business_address",
        "What is the complete business address? (Include building number, street, area, city, state, pincode)",
        "textarea", [], true⟩,
      ⟨"owner_address", "What is the owner's residential address?", "textarea", [], true⟩,
      ⟨"email_address", "What is your email address? (Electronic mail like name@example.com)",
        "email", [], true⟩,
      ⟨"mobile_number", "What is your mobile number? (10-digit Indian mobile number)",
        "phone", [], true⟩,
      ⟨"food_category", "What type of food business are you operating?", "choice",
        ["Restaurant/Dhaba", "Catering Services", "Food Manufacturing", "Food Trading/Distribution",
         "Online Food Business", "Bakery", "Sweet Shop", "Other"], true⟩,
      ⟨"annual_turnover", "What is your expected annual business turnover?", "text", [], true⟩] }

/-- Embeds `gst_registration` entry. -/
def gstRegistrationForm : GovForm :=
  { name := "GST Registration"
    authority := "Goods and Services Tax Network (GSTN)"
    verified_fields := [
      ⟨"business_type", "What type of business entity are you registering?", "choice",
        ["Proprietorship", "Partnership", "Private Limited Company", "Public Limited Company",
         "LLP", "Trust", "NGO", "Other"], true⟩,
      ⟨"business_name", "What is your business name for GST registration?", "text", [], true⟩,
      ⟨"pan_number", "What is your PAN number? (Format: AAAAA9999A)", "text", [], true⟩,
      ⟨"business_address", "What is your principal place of business address?", "textarea", [], true⟩,
      ⟨"proprietor_name", "What is the full name of the proprietor/authorized person?",
        "text", [], true⟩,
      ⟨"email_address", "What is your email address for GST communication?", "email", [], true⟩,
      ⟨"mobile_number", "What is your mobile number?", "phone", [], true⟩,
      ⟨"bank_account", "What are your business bank account details? (Bank name and account number)",
        "text", [], true⟩,
      ⟨"business_activity", "What is your main business activity?", "text", [], true⟩,
      ⟨"expected_turnover", "What is your expected annual turnover?", "text", [], true⟩] }

/-- Embeds `company_registration` entry. -/
def companyRegistrationForm : GovForm :=
  { name := "Private Limited Company Registration"
    authority := "Registrar of Companies (ROC), Ministry of Corporate Affairs"
    verified_fields := [
      ⟨"company_name", "What is your proposed company name? (Must end with 'Private Limited')",
        "text", [], true⟩,
      ⟨"company_type", "What type of company do you want to register?", "choice",
        ["Private Limited Company", "One Person Company (OPC)", "Public Limited Company",
         "Limited Liability Partnership (LLP)"], true⟩,
      ⟨"registered_office", "What is the registered office address?", "textarea", [], true⟩,
      ⟨"authorized_capital", "What is the authorized capital amount? (Minimum ₹1,00,000)",
        "text", [], true⟩,
      ⟨"director1_name", "What is the full name of Director 1?", "text", [], true⟩,
      ⟨"director1_pan", "What is the PAN number of Director 1?", "text", [], true⟩,
      ⟨"director2_name", "What is the full name of Director 2? (Required for Pvt Ltd)",
        "text", [], false⟩,
      ⟨"director2_pan", "What is the PAN number of Director 2?", "text", [], false⟩,
      ⟨"business_activity", "What will be the main business activity of the company?",
        "text", [], true⟩,
      ⟨"email_address", "What is the company's email address?", "email", [], true⟩] }

/-- Embeds `VERIFIED_GOVERNMENT_FORMS`, in the object's insertion order. -/
def VERIFIED_GOVERNMENT_FORMS : List (String × GovForm) := [
  ("pan_card_application", panCardApplicationForm),
  ("passport_application", passportApplicationForm),
  ("driving_license", drivingLicenseForm),
  ("voter_id", voterIdForm),
  ("fssai_food_license", fssaiFoodLicenseForm),
  ("gst_registration", gstRegistrationForm),
  ("company_registration", companyRegistrationForm)]

/-- JS object lookup `VERIFIED_GOVERNMENT_FORMS[fid]`. -/
def lookupForm (fid : String) : List (String × GovForm) → Option GovForm
  | [] => none
  | (k, f) :: rest => if k == fid then some f else lookupForm fid rest

/-! ## Sessions (`sessionService.js`) -/

/-- A LangChain session.  The conversation-buffer memory is modelled as the
list of `(speaker, content)` turns; timestamps are JS epoch milliseconds
(`Int`).  States are the literal strings the source uses. -/
structure Session where
  id : String
  createdAt : Int
  lastActivity : Int
  state : String
  currentForm : Option String
  currentField : Nat
  formData : List (String × String)
  verifiedFormStructure : Option GovForm
  conv : List (String × String)
deriving Repr, DecidableEq

/-- JS falsiness of the optional `sessionId` argument
(`undefined`, `null` and `""` are falsy). -/
def sidFalsy : Option String → Bool
  | none => true
  | some s => s.isEmpty

/-- The `LangChainSession` constructor: `this.id = sessionId || uuidv4()`.
The uuid generator is an external source of freshness and is passed in as
`fresh`. -/
def newLangChainSession (fresh : String) (sessionId : Option String) (now : Int) : Session :=
  { id := if sidFalsy sessionId then fresh else sessionId.getD fresh
    createdAt := now
    lastActivity := now
    state := "INIT"
    currentForm := none
    currentField := 0
    formData := []
    verifiedFormStructure := none
    conv := [] }

/-- JS object/Map update: overwrite the value at an existing key in place,
append a new key at the end (insertion order preserved). -/
def setKey : List (String × String) → String → String → List (String × String)
  | [], k, v => [(k, v)]
  | (k', v') :: rest, k, v =>
      if k' == k then (k, v) :: rest else (k', v') :: setKey rest k v

/-- Map update for the session store. -/
def setStoreKey : List (String × Session) → String → Session → List (String × Session)
  | [], k, v => [(k, v)]
  | (k', v') :: rest, k, v =>
      if k' == k then (k, v) :: rest else (k', v') :: setStoreKey rest k v

/-- Embeds `sessions.has(id)` / `sessions.get(id)`. -/
def storeGet (store : List (String × Session)) (k : String) : Option Session :=
  match store with
  | [] => none
  | (k', v) :: rest => if k' == k then some v else storeGet rest k

/-- Embeds `getSession(sessionId)` from sessionService.js: returns the session and
the updated store.  A falsy or unknown id leads to creation of a fresh
session stored under the session's own id; a known id refreshes
`lastActivity`. -/
def getSession (fresh : String) (sessionId : Option String)
    (store : List (String × Session)) (now : Int) : Session × List (String × Session) :=
  if sidFalsy sessionId || (storeGet store (sessionId.getD "")).isNone then
    let session := newLangChainSession fresh sessionId now
    (session, setStoreKey store session.id session)
  else
    match storeGet store (sessionId.getD "") with
    | some session =>
        let session := { session with lastActivity := now }
        (session, setStoreKey store (sessionId.getD "") session)
    | none =>
        let session := newLangChainSession fresh sessionId now
        (session, setStoreKey store session.id session)

/-- Embeds `cleanupSessions(maxAge)` from sessionService.js: delete every entry
whose idle time `now - lastActivity` strictly exceeds `maxAge`. -/
def cleanupSessions (now maxAge : Int) : List (String × Session) → List (String × Session)
  | [] => []
  | (id, session) :: rest =>
      if now - session.lastActivity > maxAge then cleanupSessions now maxAge rest
      else (id, session) :: cleanupSessions now maxAge rest

/-! ## The LangChain engine (`processUserMessage`, aiService.js) -/

/-- The parsed output of the form-discovery chain
(`{ matched_form_id, message, … }`).  `matched_form_id` is `none` for a
JSON `null`. -/
structure DiscoveryResult where
  matched_form_id : Option String
  message : String
deriving Repr, DecidableEq

/-- The parsed output of the field-validation chain
(`{ valid, cleaned_value, error_message }`). -/
structure LLMValidation where
  valid : Bool
  cleaned_value : String
  error_message : Option String
deriving Repr, DecidableEq

/-- The responses `processUserMessage` can return, discriminated by their
`intent`; the payload retains the fields the engine computes.  `noResponse`
is the implicit `undefined` return on a `COMPLETE` session; `errorResponse`
is the catch-all `intent: 'error'` branch entered when an LLM call throws
or a property access faults. -/
inductive Response where
  | formDiscovered (nextQuestion : String) (message : String)
  | clarificationNeeded (message : String)
  | validationError (message : Option String) (retryQuestion : String)
  | nextQuestion (question : String)
  | formComplete
  | errorResponse
  | noResponse
deriving Repr, DecidableEq

/-- Embeds `session.addMessage(type, content)`: append a conversation turn and
touch `lastActivity`. -/
def addMessage (s : Session) (speaker content : String) (now : Int) : Session :=
  { s with conv := s.conv ++ [(speaker, content)], lastActivity := now }

/-- The form-discovery phase of `processUserMessage` (states `INIT` /
`FORM_DISCOVERY`).  `disc = none` models the discovery chain throwing (the
source catches and answers `intent: 'error'`). -/
def discoveryStep (disc : Option DiscoveryResult) (now : Int) (s : Session) :
    Response × Session :=
  match disc with
  | none => (Response.errorResponse, s)
  | some result =>
    match result.matched_form_id with
    | none =>
        (Response.clarificationNeeded result.message, addMessage s "ai" result.message now)
    | some fid =>
      if fid.isEmpty then
        (Response.clarificationNeeded result.message, addMessage s "ai" result.message now)
      else
        match lookupForm fid VERIFIED_GOVERNMENT_FORMS with
        | none =>
            (Response.clarificationNeeded result.message, addMessage s "ai" result.message now)
        | some g =>
          let s := { s with currentForm := some fid, verifiedFormStructure := some g,
                            state := "COLLECTING", currentField := 0 }
          match g.verified_fields.get? 0 with
          | none => (Response.errorResponse, s)
          | some firstField =>
              (Response.formDiscovered firstField.question result.message,
               addMessage s "ai" result.message now)

/-- Storing an accepted answer and advancing the cursor (the tail of the
`COLLECTING` branch). -/
def storeAndAdvance (field : Field) (g : GovForm) (value : String) (now : Int)
    (s : Session) : Response × Session :=
  let s2 := addMessage
    { s with formData := setKey s.formData field.name value,
             currentField := s.currentField + 1 }
    "ai" "Thank you! Information recorded." now
  if s.currentField + 1 ≥ g.verified_fields.length then
    (Response.formComplete, { s2 with state := "COMPLETE" })
  else
    match g.verified_fields.get? (s.currentField + 1) with
    | some nextField => (Response.nextQuestion nextField.question, s2)
    | none => (Response.errorResponse, s2)

/-- The field-collection phase of `processUserMessage` (state
`COLLECTING`).  A missing bound structure or an out-of-range cursor makes
the source fault on a property access, which the surrounding catch turns
into `intent: 'error'` with the session untouched.  `llmv = none` models
the validation chain throwing. -/
def collectingStep (llmv : Option LLMValidation) (now : Int) (userMessage : String)
    (s : Session) : Response × Session :=
  match s.verifiedFormStructure with
  | none => (Response.errorResponse, s)
  | some g =>
    match g.verified_fields.get? s.currentField with
    | none => (Response.errorResponse, s)
    | some currentField =>
      let validation := validateFieldInput currentField userMessage
      if currentField.type == "complex" then
        match llmv with
        | none => (Response.errorResponse, s)
        | some vr =>
          if vr.valid == false then
            (Response.validationError vr.error_message currentField.question, s)
          else storeAndAdvance currentField g vr.cleaned_value now s
      else
        if validation.valid == false then
          (Response.validationError validation.error currentField.question, s)
        else storeAndAdvance currentField g validation.value now s

/-- Embeds `processUserMessage(userMessage, session)` from aiService.js: record
the user turn, then dispatch on the session state.  The two LLM chains are
oracle parameters.  On a `COMPLETE` session neither branch applies and the
source returns `undefined` (`noResponse`). -/
def processUserMessage (disc : Option DiscoveryResult) (llmv : Option LLMValidation)
    (now : Int) (userMessage : String) (session : Session) : Response × Session :=
  let s := addMessage session "user" userMessage now
  if s.state == "INIT" || s.state == "FORM_DISCOVERY" then discoveryStep disc now s
  else if s.state == "COLLECTING" then collectingStep llmv now userMessage s
  else (Response.noResponse, s)

/-! ## The V3 monolith (`server.js`): resolver fallbacks and orchestrator -/

/-- The `form_details` payload a discovery response carries
(`generateUniversalFormDetails` and the advisory JSON).  A missing or
zero `total_fields` is falsy in `total_fields || fields_required.length`. -/
structure FormDetails where
  name : String
  authority : String
  form_number : String
  fields_required : List String
  documents_needed : List String
  fees : String
  processing_time : String
  total_fields : Option Nat
deriving Repr, DecidableEq

/-- The advisory/analyzer response shape consumed by `processConversation`:
`{ intent, form_type, form_details, current_question, field_being_asked,
message, confidence }`. -/
structure AiResponse where
  intent : String
  form_type : Option String
  form_details : Option FormDetails
  current_question : Option String
  field_being_asked : Option String
  message : String
  confidence : ℚ
deriving Repr, DecidableEq

/-- A V3 session (`createSession` in server.js). -/
structure SessionV3 where
  id : String
  createdAt : Int
  lastActivity : Int
  state : String
  conversation : List (String × String)
  currentForm : Option String
  formData : List (String × String)
  currentField : Nat
  generatedFiles : List String
  dynamicFormDetails : Option FormDetails
deriving Repr, DecidableEq

/-- Embeds `createSession(sessionId)` from server.js (V3): `id = sessionId ||
uuidv4()`. -/
def createSession (fresh : String) (sessionId : Option String) (now : Int) : SessionV3 :=
  { id := if sidFalsy sessionId then fresh else sessionId.getD fresh
    createdAt := now
    lastActivity := now
    state := "INIT"
    conversation := []
    currentForm := none
    formData := []
    currentField := 0
    generatedFiles := []
    dynamicFormDetails := none }

/-- The actions `processConversation` pushes onto `result.actions`. -/
inductive ActionV3 where
  | startUniversalForm (formType : String) (nextQuestion : String)
  | universalFormComplete (formType : Option String)
  | askUniversalQuestion (question : String) (fieldName : String)
      (fieldNumber : Nat) (totalFields : Nat)
  | validationError (message : String) (retryQuestion : Option String)
  | clarificationNeeded (message : String)
deriving Repr, DecidableEq

/-- The keyword table `governmentFormKeywords` of
`analyzeUniversalTextResponse`, in the object's insertion order:
`(keyword, (form_type, form_name))`. -/
def governmentFormKeywords : List (String × String × String) := [
  ("fssai", ("fssai_food_license", "FSSAI Food License")),
  ("food license", ("fssai_food_license", "FSSAI Food License")),
  ("food safety", ("fssai_food_license", "FSSAI Food License")),
  ("restaurant license", ("fssai_food_license", "FSSAI Food License")),
  ("gst", ("gst_registration", "GST Registration")),
  ("goods and services tax", ("gst_registration", "GST Registration")),
  ("company registration", ("company_registration", "Company Registration")),
  ("business registration", ("business_registration", "Business Registration")),
  ("partnership", ("partnership_registration", "Partnership Registration")),
  ("llp", ("llp_registration", "LLP Registration")),
  ("trademark", ("trademark_registration", "Trademark Registration")),
  ("copyright", ("copyright_registration", "Copyright Registration")),
  ("patent", ("patent_application", "Patent Application")),
  ("import export", ("import_export_license", "Import Export License")),
  ("iec", ("import_export_license", "Import Export Code")),
  ("drug license", ("drug_license", "Drug License")),
  ("shop establishment", ("shop_establishment_license", "Shop & Establishment License")),
  ("pan", ("pan_card", "PAN Card")),
  ("passport", ("passport", "Passport")),
  ("driving", ("driving_license", "Driving License")),
  ("aadhaar", ("aadhaar_card", "Aadhaar Card")),
  ("voter", ("voter_id", "Voter ID Card")),
  ("income certificate", ("income_certificate", "Income Certificate")),
  ("caste certificate", ("caste_certificate", "Caste Certificate")),
  ("domicile", ("domicile_certificate", "Domicile Certificate")),
  ("marriage certificate", ("marriage_certificate", "Marriage Certificate")),
  ("birth certificate", ("birth_certificate", "Birth Certificate")),
  ("death certificate", ("death_certificate", "Death Certificate"))]

/-- The detection loop of `analyzeUniversalTextResponse`: first keyword (in
insertion order) contained in the lowercased utterance wins (`break`). -/
def detectKeywordForm (input : String) : List (String × String × String) →
    Option (String × String)
  | [] => none
  | (kw, info) :: rest =>
      if strIncludes input kw then some info else detectKeywordForm input rest

/-- The `gst_registration` template of `generateUniversalFormDetails`. -/
def gstFormDetailsV3 : FormDetails :=
  { name := "GST Registration"
    authority := "Goods and Services Tax Network (GSTN)"
    form_number := "GST REG-01"
    fields_required := ["business_name", "business_type", "pan_number",
      "business_postal_address", "proprietor_name", "email_address", "mobile_number",
      "bank_details", "expected_turnover"]
    documents_needed := ["PAN Card", "Business Address Proof", "Bank Account Statement",
      "Identity Proof", "Business Registration Certificate"]
    fees := "Free (for online registration)"
    processing_time := "3-7 working days"
    total_fields := some 9 }

/-- The `fssai_food_license` template of `generateUniversalFormDetails`. -/
def fssaiFormDetailsV3 : FormDetails :=
  { name := "FSSAI Food License"
    authority := "Food Safety and Standards Authority of India (FSSAI)"
    form_number := "Form A/B/C (based on license type)"
    fields_required := ["license_type", "business_name", "owner_name",
      "business_postal_address", "owner_postal_address", "email_address", "business_phone",
      "food_category", "business_type"]
    documents_needed := ["Identity Proof of Owner", "Business Address Proof",
      "NOC from Local Authority", "Water Test Report", "Layout Plan of Business Premises"]
    fees := "₹100 (Basic Registration), ₹2000-5000 (State License), ₹7500+ (Central License)"
    processing_time := "7-60 days depending on license type"
    total_fields := some 9 }

/-- The `company_registration` template of `generateUniversalFormDetails`. -/
def companyFormDetailsV3 : FormDetails :=
  { name := "Company Registration"
    authority := "Registrar of Companies (ROC), Ministry of Corporate Affairs"
    form_number := "INC-32 (SPICe+)"
    fields_required := ["company_name", "company_type", "registered_office_address",
      "authorized_capital", "director_details", "business_activity", "email_address",
      "mobile_number"]
    documents_needed := ["Directors' PAN & Aadhaar", "Registered Office Address Proof",
      "NOC from Property Owner", "Digital Signature Certificate"]
    fees := "₹4000-10000 (depending on authorized capital)"
    processing_time := "10-15 working days"
    total_fields := some 8 }

/-- Embeds `generateUniversalFormDetails(formType, formName)` from server.js. -/
def generateUniversalFormDetails (formType formName : String) : FormDetails :=
  if formType == "fssai_food_license" then fssaiFormDetailsV3
  else if formType == "gst_registration" then gstFormDetailsV3
  else if formType == "company_registration" then companyFormDetailsV3
  else
    { name := formName
      authority := "Government of India"
      form_number := "As applicable"
      fields_required := ["applicant_name", "postal_address", "email_address",
        "mobile_number", "relevant_details", "supporting_information"]
      documents_needed := ["Identity Proof", "Address Proof", "Supporting Documents"]
      fees := "As applicable"
      processing_time := "15-30 working days"
      total_fields := some 6 }

/-- Embeds `generateFirstQuestion(formType)` from server.js. -/
def generateFirstQuestion (formType : String) : String :=
  if formType == "fssai_food_license" then
    "What type of FSSAI license do you need? (Basic Registration for turnover <₹12 lakh, State License for ₹12 lakh-₹20 crore, or Central License for >₹20 crore)"
  else if formType == "gst_registration" then
    "What type of business entity are you registering for GST? (Proprietorship, Partnership, Private Limited Company, etc.)"
  else if formType == "company_registration" then
    "What type of company do you want to register? (Private Limited, Public Limited, One Person Company, etc.)"
  else if formType == "trademark_registration" then
    "What do you want to register as a trademark? (Brand name, logo, slogan, etc.)"
  else if formType == "import_export_license" then
    "What type of Import Export Code (IEC) do you need? (Individual, Partnership, Company, etc.)"
  else "What is the full legal name of the applicant for this form?"

/-- Embeds `analyzeUniversalTextResponse(text, userMessage, session)` from
server.js: the deterministic analyzer used when the advisory model replied
but its reply failed to parse as JSON.  The `text` argument is unused by
the source. -/
def analyzeUniversalTextResponse (_text : String) (userMessage : String)
    (session : SessionV3) : AiResponse :=
  let input := jsToLower userMessage
  let detectedForm := detectKeywordForm input governmentFormKeywords
  if session.state == "COLLECTING" then
    { intent := "field_collection"
      form_type := session.currentForm
      form_details := none
      current_question := none
      field_being_asked := none
      message := "Thank you for providing that information."
      confidence := 0.8 }
  else
    match detectedForm with
    | some (ftype, fname) =>
        { intent := "form_discovery"
          form_type := some ftype
          form_details := some (generateUniversalFormDetails ftype fname)
          current_question := some (generateFirstQuestion ftype)
          field_being_asked := none
          message := "I can help you with " ++ fname ++ ". Let me gather the required information."
          confidence := 0.8 }
    | none =>
        { intent := "clarification_needed"
          form_type := none
          form_details := none
          current_question := none
          field_being_asked := none
          message := "I can help you with any Indian government form or document. This includes FSSAI food license, GST registration, company registration, trademark, PAN card, passport, driving license, and many more. What specific form do you need help with?"
          confidence := 0.6 }

/-- The generic government-form terms of `universalFallback`. -/
def govKeywords : List String :=
  ["license", "registration", "certificate", "card", "permit", "application", "form"]

/-- Embeds `universalFallback(userMessage, session)` from server.js: the branch
taken when the advisory call itself throws or times out.  It never matches
a specific registered schema — it only checks for generic government
terms. -/
def universalFallback (userMessage : String) (_session : SessionV3) : AiResponse :=
  let message := jsToLower userMessage
  let hasGovKeyword := govKeywords.any (fun keyword => strIncludes message keyword)
  if hasGovKeyword then
    { intent := "form_discovery"
      form_type := some "general_government_form"
      form_details := none
      current_question := none
      field_being_asked := none
      message := "I can help you with government forms and documents. Could you please specify exactly which form or certificate you need? For example: \"FSSAI food license\", \"GST registration\", \"company registration\", etc."
      confidence := 0.5 }
  else
    { intent := "clarification_needed"
      form_type := none
      form_details := none
      current_question := none
      field_being_asked := none
      message := "I'm your government form assistant. I can help you with any Indian government form including FSSAI food license, GST registration, PAN card, passport, driving license, company registration, trademark registration, and many more. What specific government form or document do you need?"
      confidence := 0.4 }

/-- JS truthiness for an optional string value. -/
def optTruthy : Option String → Bool
  | none => false
  | some s => !s.isEmpty

/-- JS `o || d` for an optional string. -/
def strOr (o : Option String) (d : String) : String :=
  if optTruthy o then o.getD "" else d

/-- Embeds `generateUniversalQuestion(fieldName, formType)` from server.js: the
context-specific table is consulted first, then the universal table, then
a generic fallback.  The long literal tables are keyed lookups. -/
def universalQuestionsTable : List (String × String) := [
  ("email_address", "What is your EMAIL address? (Electronic mail like name@example.com)"),
  ("mobile_number", "What is your mobile phone number? (10-digit number)"),
  ("business_phone", "What is your business phone number?"),
  ("postal_address", "What is your complete POSTAL address? (Include house/building number, street, area, city, state, and pincode)"),
  ("business_postal_address", "What is your complete BUSINESS address? (Include building number, street, area, city, state, and pincode)"),
  ("owner_postal_address", "What is your complete RESIDENTIAL address? (Include house number, street, city, state, and pincode)"),
  ("registered_office_address", "What is the complete REGISTERED OFFICE address? (Include building number, street, area, city, state, and pincode)"),
  ("applicant_name", "What is your full legal name as it appears on your official documents?"),
  ("owner_name", "What is the full name of the business owner/proprietor?"),
  ("proprietor_name", "What is the full name of the proprietor?"),
  ("business_name", "What is the exact name of your business/company?"),
  ("company_name", "What is your proposed company name?"),
  ("business_type", "What type of business do you operate? (Manufacturing, Trading, Service, etc.)"),
  ("company_type", "What type of company? (Private Limited, Public Limited, One Person Company, etc.)"),
  ("food_category", "What type of food business? (Restaurant, Catering, Manufacturing, Trading, etc.)"),
  ("license_type", "What type of license do you need?"),
  ("business_activity", "What is the main business activity/nature of business?"),
  ("authorized_capital", "What is the proposed authorized capital amount?"),
  ("expected_turnover", "What is your expected annual business turnover?"),
  ("bank_details", "What are your business bank account details? (Bank name, account number, IFSC)"),
  ("pan_number", "What is your PAN (Permanent Account Number)? (Format: AAAAA9999A)"),
  ("aadhaar_number", "What is your Aadhaar number? (12-digit number)"),
  ("date_of_birth", "What is your date of birth? (DD/MM/YYYY format)"),
  ("incorporation_date", "When do you want to incorporate the company? (DD/MM/YYYY)"),
  ("director_details", "Who are the proposed directors? (Please provide names and details)"),
  ("relevant_details", "Please provide any other relevant details for this application"),
  ("supporting_information", "Do you have any additional supporting information?")]

/-- The context-specific question table of `generateUniversalQuestion`:
`(formType, fieldName)`-keyed. -/
def contextQuestionsTable : List ((String × String) × String) := [
  (("fssai_food_license", "business_name"),
    "What is the name of your food business as you want it to appear on the FSSAI license?"),
  (("fssai_food_license", "food_category"),
    "What type of food business are you operating? (Restaurant, Food Manufacturing, Catering, Online Food Business, etc.)"),
  (("gst_registration", "business_name"), "What is your business name for GST registration?"),
  (("gst_registration", "business_type"),
    "What type of business entity? (Proprietorship, Partnership, Private Limited Company, etc.)"),
  (("company_registration", "company_name"),
    "What is your proposed company name? (It should end with Private Limited)"),
  (("company_registration", "business_activity"),
    "What will be the main business activity of your company?")]

/-- Keyed lookup in a string-keyed association list. -/
def assocLookup {α : Type} [BEq α] (k : α) : List (α × String) → Option String
  | [] => none
  | (k', v) :: rest => if k' == k then some v else assocLookup k rest

/-- Embeds `field.replace(/_/g, ' ')` used by the generic question fallback. -/
def underscoresToSpaces (s : String) : String :=
  ⟨s.data.map (fun c => if c == '_' then ' ' else c)⟩

/-- Embeds `generateUniversalQuestion(fieldName, formType)` from server.js. -/
def generateUniversalQuestion (fieldName : String) (formType : Option String) : String :=
  match formType with
  | some ft =>
    match assocLookup (ft, fieldName) contextQuestionsTable with
    | some q => q
    | none =>
      match assocLookup fieldName universalQuestionsTable with
      | some q => q
      | none => "Please provide your " ++ underscoresToSpaces fieldName ++ ":"
  | none =>
    match assocLookup fieldName universalQuestionsTable with
    | some q => q
    | none => "Please provide your " ++ underscoresToSpaces fieldName ++ ":"

/-- Embeds `generateUniversalFirstQuestion(formType)` from server.js. -/
def generateUniversalFirstQuestion (formType : String) : String :=
  match assocLookup formType [
    ("fssai_food_license", "What type of FSSAI license do you need? (Basic Registration for turnover <₹12 lakh, State License for ₹12 lakh-₹20 crore, or Central License for >₹20 crore)"),
    ("gst_registration", "What type of business entity are you registering for GST? (Proprietorship, Partnership, Private Limited Company, etc.)"),
    ("company_registration", "What type of company do you want to register? (Private Limited, Public Limited, One Person Company, etc.)"),
    ("trademark_registration", "What do you want to register as a trademark? (Word mark, Logo, Device mark, etc.)"),
    ("import_export_license", "Are you applying as an Individual, Partnership, or Company for the Import Export Code?"),
    ("shop_establishment_license", "What type of establishment are you registering? (Shop, Office, Commercial Establishment, etc.)"),
    ("drug_license", "What type of drug license do you need? (Manufacturing, Trading, Retail, etc.)"),
    ("income_certificate", "For whom do you need the income certificate? (Self, Family member, etc.)"),
    ("caste_certificate", "What is the category you belong to? (SC, ST, OBC, etc.)"),
    ("birth_certificate", "For whom do you need the birth certificate? (Self, Child, etc.)"),
    ("marriage_certificate", "What type of marriage certificate do you need? (Registration certificate, Court marriage certificate, etc.)")] with
  | some q => q
  | none => "What is your full legal name for this application?"

/-- Embeds `aiResponse.field_being_asked || fields_required[currentField] ||
'field_' + currentField`. -/
def fieldNameFor (beingAsked : Option String) (details : FormDetails) (i : Nat) : String :=
  if optTruthy beingAsked then beingAsked.getD ""
  else
    match details.fields_required.get? i with
    | some n => if n.isEmpty then "field_" ++ toString i else n
    | none => "field_" ++ toString i

/-- Embeds `total_fields || fields_required.length` (0 and missing are falsy). -/
def totalFieldsOf (details : FormDetails) : Nat :=
  match details.total_fields with
  | some n => if n == 0 then details.fields_required.length else n
  | none => details.fields_required.length

/-- Embeds `processConversation(aiResponse, session, userMessage)` from server.js:
append the two conversation turns, then dispatch on the response intent.
Returns the mutated session and the pushed actions. -/
def processConversation (aiResponse : AiResponse) (session : SessionV3)
    (userMessage : String) (now : Int) : SessionV3 × List ActionV3 :=
  let s := { session with
    conversation := session.conversation ++
      [("user", userMessage), ("bot", aiResponse.message)] }
  if aiResponse.intent == "form_discovery" then
    match aiResponse.form_details with
    | some details =>
      if optTruthy aiResponse.form_type then
        let s := { s with state := "COLLECTING", currentForm := aiResponse.form_type,
                          currentField := 0, formData := [],
                          dynamicFormDetails := some details, lastActivity := now }
        (s, [ActionV3.startUniversalForm (aiResponse.form_type.getD "")
              (strOr aiResponse.current_question
                (generateUniversalFirstQuestion (aiResponse.form_type.getD "")))])
      else (s, [])
    | none => (s, [])
  else if aiResponse.intent == "field_collection" then
    if optTruthy s.currentForm then
      match s.dynamicFormDetails with
      | some details =>
        let fieldName := fieldNameFor aiResponse.field_being_asked details s.currentField
        let s := { s with formData := setKey s.formData fieldName userMessage,
                          currentField := s.currentField + 1 }
        let totalFields := totalFieldsOf details
        if s.currentField ≥ totalFields then
          let s := { s with state := "COMPLETE", lastActivity := now }
          (s, [ActionV3.universalFormComplete s.currentForm])
        else
          let nextFieldName := (details.fields_required.get? s.currentField).getD ""
          let question := strOr aiResponse.current_question
            (generateUniversalQuestion nextFieldName s.currentForm)
          let s := { s with lastActivity := now }
          (s, [ActionV3.askUniversalQuestion question nextFieldName
                (s.currentField + 1) totalFields])
      | none => (s, [])
    else (s, [])
  else if aiResponse.intent == "validation_error" then
    (s, [ActionV3.validationError aiResponse.message aiResponse.current_question])
  else if aiResponse.intent == "clarification_needed" then
    (s, [ActionV3.clarificationNeeded aiResponse.message])
  else (s, [])

/-! ## The cursor invariant and concrete fixtures -/

/-- The standing cursor invariant of the LangChain engine: in `INIT` /
`FORM_DISCOVERY` the cursor is 0; in `COLLECTING` a schema is bound and
the cursor is strictly below its field count; in `COMPLETE` a schema is
bound and the cursor equals its field count. -/
def invB (s : Session) : Bool :=
  if s.state == "INIT" || s.state == "FORM_DISCOVERY" then s.currentField == 0
  else if s.state == "COLLECTING" then
    match s.verifiedFormStructure with
    | some g => decide (s.currentField < g.verified_fields.length)
    | none => false
  else if s.state == "COMPLETE" then
    match s.verifiedFormStructure with
    | some g => s.currentField == g.verified_fields.length
    | none => false
  else false

/-- The `email_address` field of `pan_card_application`. -/
def emailAddressField : Field :=
  ⟨"email_address", "What is your email address?", "email", [], true⟩

/-- The `mobile_number` field of `pan_card_application`. -/
def mobileNumberField : Field :=
  ⟨"mobile_number", "What is your mobile number?", "phone", [], true⟩

/-- The `applicant_category` field of `pan_card_application` (a required
choice field). -/
def applicantCategoryField : Field :=
  ⟨"applicant_category", "What category of applicant are you?", "choice",
    ["Individual", "HUF", "Company", "Firm", "Trust", "Association of Persons"], true⟩

/-- A field declared with type `date`, as the V3 `governmentForms` database
declares its `dob` fields. -/
def dobDateField : Field :=
  ⟨"dob", "What is your date of birth? (DD/MM/YYYY)", "date", [], true⟩

/-- A non-required field of type `phone`. -/
def optionalPhoneField : Field :=
  ⟨"alt_mobile_number", "What is an alternate mobile number?", "phone", [], false⟩

/-- An engine session bound to `pan_card_application`, collecting field 5
(`email_address`). -/
def sessionAtEmailField : Session :=
  ⟨"s1", 0, 0, "COLLECTING", some "pan_card_application", 5, [],
    some panCardApplicationForm, []⟩

/-- An engine session bound to `pan_card_application`, collecting field 0
(`applicant_category`). -/
def sessionAtChoiceField : Session :=
  ⟨"s2", 0, 0, "COLLECTING", some "pan_card_application", 0, [],
    some panCardApplicationForm, []⟩

/-- An engine session that has completed `pan_card_application` (all 9
fields collected; the answer set is elided, it plays no role). -/
def sessionComplete : Session :=
  ⟨"s3", 0, 0, "COMPLETE", some "pan_card_application", 9,
    [("full_name", "A Citizen")], some panCardApplicationForm, []⟩

/-- A fresh V3 session. -/
def v3SessionInit : SessionV3 := createSession "uuid-1" none 0

/-- A V3 session that has completed the dynamically discovered
`gst_registration` form (9 of 9 fields collected). -/
def v3SessionComplete : SessionV3 :=
  ⟨"s9", 0, 0, "COMPLETE", [], some "gst_registration",
    [("business_name", "Acme")], 9, [], some gstFormDetailsV3⟩

/-- A `field_collection` advisory response, of the JSON shape the V3
system prompt requests from the model; the endpoint feeds any parsed
advisory JSON straight into `processConversation` with no state guard. -/
def fieldCollectionResponse : AiResponse :=
  ⟨"field_collection", none, none, none, some "extra_field",
    "Thank you for providing that information.", 0.9⟩

/-- Does the string start with a digit in the mobile range 6–9?  (Used to
state the phone rule's "first digit is between 6 and 9".) -/
def firstDigit69 (s : String) : Bool :=
  match s.data with
  | c :: _ => '6' ≤ c && c ≤ '9'
  | [] => false

/-! ## Helper lemmas -/

theorem jsTrimList_eq (l : List Char) :
    jsTrimList l = (l.dropWhile isSpaceJS).rdropWhile isSpaceJS := rfl

theorem dropWhile_self_of_rdropWhile {A : List Char}
    (hA : A.dropWhile isSpaceJS = A) :
    (A.rdropWhile isSpaceJS).dropWhile isSpaceJS = A.rdropWhile isSpaceJS := by
  obtain ⟨t, ht⟩ := List.rdropWhile_prefix isSpaceJS A
  cases hB : A.rdropWhile isSpaceJS with
  | nil => rfl
  | cons b bs =>
    rw [hB] at ht
    have hpb : isSpaceJS b = false := by
      cases hv : isSpaceJS b with
      | false => rfl
      | true =>
        exfalso
        have hA' : A = b :: (bs ++ t) := by rw [← ht]; rfl
        have h1 : A.dropWhile isSpaceJS = (bs ++ t).dropWhile isSpaceJS := by
          rw [hA', List.dropWhile_cons, hv]; simp
        have h2 : A.length ≤ (bs ++ t).length := by
          calc A.length = (A.dropWhile isSpaceJS).length := by rw [hA]
            _ = ((bs ++ t).dropWhile isSpaceJS).length := by rw [h1]
            _ ≤ (bs ++ t).length := (List.dropWhile_suffix isSpaceJS).length_le
        rw [hA'] at h2
        simp at h2
    rw [List.dropWhile_cons, hpb]
    simp

theorem jsTrimList_idem (l : List Char) :
    jsTrimList (jsTrimList l) = jsTrimList l := by
  rw [jsTrimList_eq l, jsTrimList_eq]
  rw [dropWhile_self_of_rdropWhile (List.dropWhile_idempotent isSpaceJS l)]
  exact List.rdropWhile_idempotent _ _

theorem jsTrimList_of_no_space (l : List Char)
    (h : ∀ c ∈ l, isSpaceJS c = false) : jsTrimList l = l := by
  have h1 : l.dropWhile isSpaceJS = l := by
    cases l with
    | nil => rfl
    | cons a as => rw [List.dropWhile_cons, h a (by simp)]; simp
  rw [jsTrimList_eq, h1]
  rw [List.rdropWhile_eq_self_iff]
  intro hl
  rw [h (l.getLast hl) (List.getLast_mem hl)]
  simp

theorem not_space_of_digit (c : Char) (h : c.isDigit = true) :
    isSpaceJS c = false := by
  cases hv : isSpaceJS c with
  | false => rfl
  | true =>
    exfalso
    simp only [isSpaceJS, Bool.or_eq_true, beq_iff_eq] at hv
    rcases hv with ((((h1 | h1) | h1) | h1) | h1) | h1 <;> subst h1 <;>
      exact absurd h (by decide)

theorem stripNonDigits_all_digits (s : String) :
    ∀ c ∈ (stripNonDigits s).data, c.isDigit = true := by
  intro c hc
  exact (List.mem_filter.mp hc).2

theorem stripNonDigits_idem (s : String) :
    stripNonDigits (stripNonDigits s) = stripNonDigits s := by
  unfold stripNonDigits
  congr 1
  exact List.filter_eq_self.mpr (fun a ha => (List.mem_filter.mp ha).2)

theorem phoneRegexTest_ne_nil (s : String) (h : phoneRegexTest s = true) :
    s.data ≠ [] := by
  intro hnil
  unfold phoneRegexTest at h
  rw [hnil] at h
  simp at h

theorem jsTrim_of_all_digits (s : String)
    (h : ∀ c ∈ s.data, c.isDigit = true) : jsTrim s = s := by
  unfold jsTrim
  rw [jsTrimList_of_no_space s.data (fun c hc => not_space_of_digit c (h c hc))]

theorem lookupForm_all (P : GovForm → Bool) :
    ∀ (l : List (String × GovForm)) (fid : String) (g : GovForm),
      l.all (fun p => P p.2) = true → lookupForm fid l = some g → P g = true := by
  intro l
  induction l with
  | nil => intro fid g _ hl; simp [lookupForm] at hl
  | cons p rest ih =>
    intro fid g hall hl
    obtain ⟨k, f⟩ := p
    rw [List.all_cons, Bool.and_eq_true] at hall
    rw [lookupForm] at hl
    by_cases hk : (k == fid) = true
    · rw [if_pos hk] at hl
      cases hl
      exact hall.1
    · rw [if_neg hk] at hl
      exact ih fid g hall.2 hl

theorem registry_fields_nonempty (fid : String) (g : GovForm)
    (h : lookupForm fid VERIFIED_GOVERNMENT_FORMS = some g) :
    0 < g.verified_fields.length := by
  have hall : VERIFIED_GOVERNMENT_FORMS.all
      (fun p => decide (0 < p.2.verified_fields.length)) = true := by decide
  exact of_decide_eq_true
    (lookupForm_all (fun g => decide (0 < g.verified_fields.length))
      VERIFIED_GOVERNMENT_FORMS fid g hall h)

theorem strIncludes_empty_sub (s : String) : strIncludes s "" = true := by
  unfold strIncludes listContainsSub
  cases s.data with
  | nil => rfl
  | cons c t => rfl

/-! ## Claim C9 — expiry sweep boundary -/

/-- C9: `cleanupSessions` retains exactly the sessions whose idle time
`now - lastActivity` is at most `maxAge` (equivalently, it removes exactly
those whose idle time strictly exceeds `maxAge`); in particular a session
whose idle time equals `maxAge` exactly is retained — the boundary is
exclusive. -/
theorem claim9_sweep_exclusive_boundary (now maxAge : Int)
    (store : List (String × Session)) (e : String × Session) :
    e ∈ cleanupSessions now maxAge store ↔
      e ∈ store ∧ now - e.2.lastActivity ≤ maxAge := by
  induction store with
  | nil => simp [cleanupSessions]
  | cons p rest ih =>
    obtain ⟨id, sess⟩ := p
    rw [cleanupSessions]
    by_cases hgt : now - sess.lastActivity > maxAge
    · rw [if_pos hgt, ih]
      constructor
      · rintro ⟨hm, hle⟩
        exact ⟨List.mem_cons_of_mem _ hm, hle⟩
      · rintro ⟨hm, hle⟩
        rcases List.mem_cons.mp hm with rfl | hm'
        · exfalso
          dsimp at hle
          omega
        · exact ⟨hm', hle⟩
    · rw [if_neg hgt]
      constructor
      · intro hm
        rcases List.mem_cons.mp hm with rfl | hm'
        · refine ⟨List.mem_cons_self _ _, ?_⟩
          dsimp
          omega
        · obtain ⟨hm2, hle⟩ := ih.mp hm'
          exact ⟨List.mem_cons_of_mem _ hm2, hle⟩
      · rintro ⟨hm, hle⟩
        rcases List.mem_cons.mp hm with rfl | hm'
        · exact List.mem_cons_self _ _
        · exact List.mem_cons_of_mem _ (ih.mpr ⟨hm', hle⟩)

/-! ## Claim C10 — choice fields accept the empty string -/

/-- C10: for every choice field (required or not) carrying at least one
option — the data model guarantees a choice field always carries a
non-empty option set — `validateFieldInput` accepts the empty raw input
with normalized value `""`, because `option.includes("")` holds for every
option; consequently a required choice field is satisfied by an empty
answer, as the engine-level conjunct shows: collecting `applicant_category`
with the message `""` stores `""` and advances the cursor. -/
theorem claim10_choice_accepts_empty :
    (∀ field : Field, field.type = "choice" → field.options ≠ [] →
      validateFieldInput field "" = ⟨true, "", none⟩) ∧
    (processUserMessage none none 0 "" sessionAtChoiceField).2.currentField =
        sessionAtChoiceField.currentField + 1 ∧
    (processUserMessage none none 0 "" sessionAtChoiceField).2.formData =
        [("applicant_category", "")] := by
  refine ⟨?_, by decide, by decide⟩
  intro field hty hopts
  obtain ⟨n, q, ty, opts, req⟩ := field
  dsimp at hty
  subst hty
  cases req with
  | false => rfl
  | true =>
    obtain ⟨o, os, rfl⟩ := List.exists_cons_of_ne_nil hopts
    have hany : ((o :: os).any fun opt =>
        strIncludes (jsToLower "") (jsToLower opt) ||
        strIncludes (jsToLower opt) (jsToLower "")) = true := by
      have h0 : jsToLower "" = "" := rfl
      rw [List.any_cons, h0, strIncludes_empty_sub (jsToLower o), Bool.or_true, Bool.true_or]
    simp only [validateFieldInput, hany]
    simp

/-- Witness for C10 at the registry's required `applicant_category`
choice field. -/
theorem claim10_witness :
    validateFieldInput applicantCategoryField "" = ⟨true, "", none⟩ :=
  claim10_choice_accepts_empty.1 applicantCategoryField rfl (by decide)

/-! ## Claim C2 — resolver fallback on advisory failure -/

/-- C2 counterexample: when the advisory call throws, the resolver falls
back to `universalFallback`, and for the utterance "I need a PAN card"
that returns `form_type = general_government_form` (a generic ask-for-the
specific-form response), not `pan_card_application`. -/
theorem claim2_counterexample :
    (universalFallback "I need a PAN card" v3SessionInit).form_type =
        some "general_government_form" ∧
    (universalFallback "I need a PAN card" v3SessionInit).form_type ≠
        some "pan_card_application" := by
  exact ⟨rfl, by decide⟩

/-- C2 amended: per-schema keyword matching lives in
`analyzeUniversalTextResponse` (the branch for an advisory reply that
fails to parse as JSON), where the first keyword hit for "I need a PAN
card" is `"pan"`, mapped to `pan_card` — not `pan_card_application`; both
fallbacks are pure functions of the utterance and the fixed keyword
tables, hence return the same schema id on every call (the advisory text
argument is ignored, as the universal quantifier over `text` shows).  The
advisory-call-failure path (`universalFallback`) never matches a specific
schema: it reports `general_government_form` for utterances containing a
generic government term. -/
theorem claim2_amended :
    (∀ text : String,
      (analyzeUniversalTextResponse text "I need a PAN card" v3SessionInit).form_type =
          some "pan_card" ∧
      (analyzeUniversalTextResponse text "I need a PAN card" v3SessionInit).intent =
          "form_discovery") ∧
    (universalFallback "I need a PAN card" v3SessionInit).intent = "form_discovery" ∧
    (universalFallback "I need a PAN card" v3SessionInit).form_type =
        some "general_government_form" :=
  ⟨fun _ => ⟨rfl, rfl⟩, rfl, rfl⟩

/-! ## Claim C3 — getOrCreate with absent or unknown session id -/

/-- C3 counterexample: `getSession` with the unknown (but supplied) id
`"ghost"` on an empty store creates the fresh session under the
caller-supplied id `"ghost"`, not under a newly generated identifier. -/
theorem claim3_counterexample :
    (getSession "fresh-uuid" (some "ghost") [] 0).1.id = "ghost" ∧
    (getSession "fresh-uuid" (some "ghost") [] 0).1.id ≠ "fresh-uuid" ∧
    (getSession "fresh-uuid" (some "ghost") [] 0).1.state = "INIT" :=
  ⟨rfl, by decide, rfl⟩

theorem storeGet_setStoreKey (store : List (String × Session)) (k : String) (v : Session) :
    storeGet (setStoreKey store k v) k = some v := by
  induction store with
  | nil => simp [setStoreKey, storeGet]
  | cons p rest ih =>
    obtain ⟨k', v'⟩ := p
    rw [setStoreKey]
    by_cases hk : (k' == k) = true
    · rw [if_pos hk, storeGet, if_pos (by simp)]
    · rw [if_neg hk, storeGet, if_neg hk]
      exact ih

/-- C3 amended: `getSession` with an absent (falsy) or unknown id never
raises (it is total) and always creates and stores a fresh session in
state `INIT` with cursor 0, no answers and no bound schema; the session's
identifier is the freshly generated one only when the supplied id is
absent — an unknown non-empty id is reused as the new session's
identifier. -/
theorem claim3_amended (fresh : String) (sessionId : Option String)
    (store : List (String × Session)) (now : Int)
    (h : sidFalsy sessionId = true ∨ storeGet store (sessionId.getD "") = none) :
    (getSession fresh sessionId store now).1.state = "INIT" ∧
    (getSession fresh sessionId store now).1.currentField = 0 ∧
    (getSession fresh sessionId store now).1.formData = [] ∧
    (getSession fresh sessionId store now).1.verifiedFormStructure = none ∧
    (getSession fresh sessionId store now).1.id =
        (if sidFalsy sessionId then fresh else sessionId.getD fresh) ∧
    storeGet (getSession fresh sessionId store now).2
        (getSession fresh sessionId store now).1.id =
      some (getSession fresh sessionId store now).1 := by
  have hcond : (sidFalsy sessionId || (storeGet store (sessionId.getD "")).isNone) = true := by
    rcases h with h | h
    · rw [h, Bool.true_or]
    · rw [h]
      simp
  simp only [getSession, hcond, if_true]
  refine ⟨rfl, rfl, rfl, rfl, rfl, ?_⟩
  exact storeGet_setStoreKey store _ _

/-- Witness for C3: the unknown-id instance. -/
theorem claim3_witness :
    (getSession "fresh-uuid" (some "ghost") [] 0).1.state = "INIT" ∧
    (getSession "fresh-uuid" (some "ghost") [] 0).1.currentField = 0 :=
  ⟨(claim3_amended "fresh-uuid" (some "ghost") [] 0 (Or.inr rfl)).1,
   (claim3_amended "fresh-uuid" (some "ghost") [] 0 (Or.inr rfl)).2.1⟩

/-! ## Claim C5 — date validation -/

/-- C5 counterexample: the LangChain validator `validateFieldInput` has no
`date` case, so a field declared with type `date` falls through to the
default text rule and the input `"not-a-date"` is accepted even though it
does not match the `DD/MM/YYYY` shape — the claimed "accept iff the strict
shape matches" is false for this validator. -/
theorem claim5_counterexample :
    (validateFieldInput dobDateField "not-a-date").valid = true ∧
    dateRegexTest "not-a-date" = false :=
  ⟨by decide, by decide⟩

/-- C5 amended: for a required `date` field, the server.js helper
`validateField` accepts exactly the strict `DD/MM/YYYY` shape (two digits,
slash, two digits, slash, four digits — purely syntactic, no calendar
check), while the LangChain validator `validateFieldInput` treats the
field as text and accepts any input whose trim is nonempty. -/
theorem claim5_amended (field : Field) (v : String)
    (hty : field.type = "date") (hreq : field.required = true) :
    validateField field v = dateRegexTest v ∧
    (validateFieldInput field v).valid = decide (0 < (jsTrim v).data.length) := by
  obtain ⟨n, q, ty, opts, req⟩ := field
  dsimp at hty hreq
  subst hty
  subst hreq
  exact ⟨rfl, rfl⟩

/-- Witness for C5 at a date-typed field. -/
theorem claim5_witness :
    validateField dobDateField "31/12/1999" = dateRegexTest "31/12/1999" ∧
    (validateFieldInput dobDateField "31/12/1999").valid =
      decide (0 < (jsTrim "31/12/1999").data.length) :=
  claim5_amended dobDateField "31/12/1999" rfl rfl

/-! ## Claim C6 — phone validation -/

/-- C6 counterexample: a non-required `phone` field with the blank input
`""` is accepted by the early optional-blank return with value `""`, even
though stripping non-digits leaves zero digits — the claimed unconditional
"accept iff exactly 10 digits remain with first digit 6–9" is false. -/
theorem claim6_counterexample :
    (validateFieldInput optionalPhoneField "").valid = true ∧
    stripNonDigits "" = "" ∧
    phoneRegexTest (stripNonDigits "") = false :=
  ⟨by decide, by decide, by decide⟩

/-- C6 amended: whenever the field is required or the trimmed input is
nonblank, the phone rule strips all non-digit characters and accepts iff
the regex `/^[6-9]\d{9}$/` matches the stripped string — equivalently,
iff exactly 10 digits remain and the first is between 6 and 9 — with the
stripped digit string as normalized value (a non-required phone field with
blank input is instead accepted with the raw input).  In particular
`"98765-43210"` is accepted with normalized value `"9876543210"`. -/
theorem claim6_amended :
    (∀ (field : Field) (input : String), field.type = "phone" →
      (field.required = true ∨ (jsTrim input).data ≠ []) →
      validateFieldInput field input =
        ⟨phoneRegexTest (stripNonDigits input), stripNonDigits input,
          if phoneRegexTest (stripNonDigits input) then none
          else some "Please provide a valid 10-digit Indian mobile number"⟩) ∧
    (∀ input : String,
      phoneRegexTest (stripNonDigits input) = true ↔
        ((stripNonDigits input).data.length = 10 ∧
          firstDigit69 (stripNonDigits input) = true)) ∧
    validateFieldInput mobileNumberField "98765-43210" = ⟨true, "9876543210", none⟩ := by
  refine ⟨?_, ?_, by decide⟩
  · intro field input hty hpre
    obtain ⟨n, q, ty, opts, req⟩ := field
    dsimp at hty hpre
    subst hty
    cases req with
    | true => rfl
    | false =>
      have hne : (jsTrim input).data ≠ [] := by
        rcases hpre with h | h
        · exact absurd h (by decide)
        · exact h
      have hie : (jsTrim input).data.isEmpty = false := by
        cases hd : (jsTrim input).data with
        | nil => exact absurd hd hne
        | cons a t => rfl
      simp only [validateFieldInput, hie, Bool.and_false, Bool.false_eq_true, if_false]
      rfl
  · intro input
    cases hd : (stripNonDigits input).data with
    | nil =>
      constructor
      · intro habs
        unfold phoneRegexTest at habs
        rw [hd] at habs
        simp at habs
      · rintro ⟨hlen, _⟩
        simp at hlen
    | cons c rest =>
      have hall : rest.all Char.isDigit = true := by
        rw [List.all_eq_true]
        intro x hx
        exact stripNonDigits_all_digits input x (by rw [hd]; exact List.mem_cons_of_mem _ hx)
      unfold phoneRegexTest firstDigit69
      rw [hd]
      dsimp only
      rw [hall]
      simp only [Bool.and_true, Bool.and_eq_true, beq_iff_eq, List.length_cons,
        decide_eq_true_eq]
      constructor
      · rintro ⟨⟨h6, h9⟩, hlen⟩
        exact ⟨by omega, h6, h9⟩
      · rintro ⟨hlen, h6, h9⟩
        exact ⟨⟨h6, h9⟩, by omega⟩

/-- Witness for C6: the required `mobile_number` field with the dashed
input of the spec's scenario. -/
theorem claim6_witness :
    validateFieldInput mobileNumberField "98765-43210" =
      ⟨phoneRegexTest (stripNonDigits "98765-43210"), stripNonDigits "98765-43210",
        if phoneRegexTest (stripNonDigits "98765-43210") then none
        else some "Please provide a valid 10-digit Indian mobile number"⟩ :=
  claim6_amended.1 mobileNumberField "98765-43210" rfl (Or.inl rfl)

/-! ## Claim C7 — validator idempotence -/

/-- C7: `validateFieldInput` is pure and idempotent on accepted values:
whenever it accepts an input, re-validating the returned normalized value
against the same field definition returns the very same accepting result
(same acceptance, same normalized value, no error). -/
theorem claim7_validator_idempotent (field : Field) (input : String)
    (h : (validateFieldInput field input).valid = true) :
    validateFieldInput field ((validateFieldInput field input).value) =
      validateFieldInput field input := by
  by_cases h0 : (field.required == false && (jsTrim input).data.isEmpty) = true
  · have hr : validateFieldInput field input = ⟨true, input, none⟩ := by
      unfold validateFieldInput
      rw [if_pos h0]
    rw [hr]
    exact hr
  · by_cases h1 : (field.type == "email") = true
    · have hr : validateFieldInput field input =
          ⟨emailRegexTest input, input,
            if emailRegexTest input then none
            else some "Please provide a valid email address (like name@example.com)"⟩ := by
        unfold validateFieldInput
        rw [if_neg h0, if_pos h1]
      rw [hr]
      exact hr
    · by_cases h2 : (field.type == "phone") = true
      · have hr : validateFieldInput field input =
            ⟨phoneRegexTest (stripNonDigits input), stripNonDigits input,
              if phoneRegexTest (stripNonDigits input) then none
              else some "Please provide a valid 10-digit Indian mobile number"⟩ := by
          unfold validateFieldInput
          rw [if_neg h0, if_neg h1, if_pos h2]
        have hvalid : phoneRegexTest (stripNonDigits input) = true := by
          rw [hr] at h
          exact h
        have hvdig : ∀ c ∈ (stripNonDigits input).data, c.isDigit = true :=
          stripNonDigits_all_digits input
        have hvne : (stripNonDigits input).data ≠ [] :=
          phoneRegexTest_ne_nil (stripNonDigits input) hvalid
        have htrim : jsTrim (stripNonDigits input) = stripNonDigits input :=
          jsTrim_of_all_digits (stripNonDigits input) hvdig
        have hie : (jsTrim (stripNonDigits input)).data.isEmpty = false := by
          rw [htrim]
          cases hdd : (stripNonDigits input).data with
          | nil => exact absurd hdd hvne
          | cons a t => rfl
        have hstrip : stripNonDigits (stripNonDigits input) = stripNonDigits input :=
          stripNonDigits_idem input
        rw [hr]
        dsimp only
        unfold validateFieldInput
        rw [hie]
        simp only [Bool.and_false, Bool.false_eq_true, if_false]
        rw [if_neg h1, if_pos h2, hstrip]
      · by_cases h3 : (field.type == "choice") = true
        · have hr : validateFieldInput field input =
              ⟨field.options.any (fun opt =>
                  strIncludes (jsToLower input) (jsToLower opt) ||
                  strIncludes (jsToLower opt) (jsToLower input)), input,
                if field.options.any (fun opt =>
                    strIncludes (jsToLower input) (jsToLower opt) ||
                    strIncludes (jsToLower opt) (jsToLower input)) then none
                else some ("Please choose from: " ++ joinComma field.options)⟩ := by
            unfold validateFieldInput
            rw [if_neg h0, if_neg h1, if_neg h2, if_pos h3]
          rw [hr]
          exact hr
        · have hr : validateFieldInput field input =
              ⟨decide (0 < (jsTrim input).data.length), jsTrim input,
                if 0 < (jsTrim input).data.length then none
                else some "This field is required"⟩ := by
            unfold validateFieldInput
            rw [if_neg h0, if_neg h1, if_neg h2, if_neg h3]
          have hpos : 0 < (jsTrim input).data.length := by
            rw [hr] at h
            exact of_decide_eq_true h
          have htt : jsTrim (jsTrim input) = jsTrim input := by
            unfold jsTrim
            rw [jsTrimList_idem]
          have hie : (jsTrim (jsTrim input)).data.isEmpty = false := by
            rw [htt]
            cases hdd : (jsTrim input).data with
            | nil => rw [hdd] at hpos; simp at hpos
            | cons a t => rfl
          rw [hr]
          dsimp only
          unfold validateFieldInput
          rw [hie]
          simp only [Bool.and_false, Bool.false_eq_true, if_false]
          rw [if_neg h1, if_neg h2, if_neg h3, htt]

/-- Witness for C7 at the spec's phone scenario, whose normalized value
differs from the raw input. -/
theorem claim7_witness :
    (validateFieldInput mobileNumberField "98765-43210").valid = true ∧
    validateFieldInput mobileNumberField
        ((validateFieldInput mobileNumberField "98765-43210").value) =
      validateFieldInput mobileNumberField "98765-43210" :=
  ⟨by decide, claim7_validator_idempotent mobileNumberField "98765-43210" (by decide)⟩

/-! ## Engine-step lemmas -/

theorem addMessage_state (s : Session) (a b : String) (n : Int) :
    (addMessage s a b n).state = s.state := rfl

theorem addMessage_currentField (s : Session) (a b : String) (n : Int) :
    (addMessage s a b n).currentField = s.currentField := rfl

theorem addMessage_verifiedFormStructure (s : Session) (a b : String) (n : Int) :
    (addMessage s a b n).verifiedFormStructure = s.verifiedFormStructure := rfl

theorem addMessage_formData (s : Session) (a b : String) (n : Int) :
    (addMessage s a b n).formData = s.formData := rfl

theorem invB_addMessage (s : Session) (a b : String) (n : Int) :
    invB (addMessage s a b n) = invB s := rfl

/-- In the `COLLECTING` phase, a directly validated (non-`complex`) field
whose validation fails produces a `validation_error` response carrying the
validator's reason and the same field's question, with the session
untouched. -/
theorem collectingStep_invalid (llmv : Option LLMValidation) (now : Int) (msg : String)
    (s : Session) (g : GovForm) (field : Field)
    (hg : s.verifiedFormStructure = some g)
    (hf : g.verified_fields.get? s.currentField = some field)
    (hnc : (field.type == "complex") = false)
    (hinv : (validateFieldInput field msg).valid = false) :
    collectingStep llmv now msg s =
      (Response.validationError (validateFieldInput field msg).error field.question, s) := by
  unfold collectingStep
  rw [hg]
  dsimp only
  rw [hf]
  dsimp only
  rw [hnc]
  simp only [Bool.false_eq_true, if_false]
  rw [if_pos (by rw [hinv]; rfl)]

/-- Dispatch of `processUserMessage` for a session in state `COLLECTING`. -/
theorem processUserMessage_collecting (disc : Option DiscoveryResult)
    (llmv : Option LLMValidation) (now : Int) (msg : String) (s : Session)
    (hstate : s.state = "COLLECTING") :
    processUserMessage disc llmv now msg s =
      collectingStep llmv now msg (addMessage s "user" msg now) := by
  unfold processUserMessage
  dsimp only
  rw [addMessage_state, hstate]
  rfl

/-! ## Claim C4 — validation failure reporting -/

/-- C4 counterexample: for the registry's `email_address` field and the
input `"not-an-email"`, the validator rejects — but the reported reason is
the string "Please provide a valid email address (like name@example.com)",
not the claimed "not a valid email address". -/
theorem claim4_counterexample :
    (validateFieldInput emailAddressField "not-an-email").valid = false ∧
    (validateFieldInput emailAddressField "not-an-email").error =
        some "Please provide a valid email address (like name@example.com)" ∧
    (validateFieldInput emailAddressField "not-an-email").error ≠
        some "not a valid email address" :=
  ⟨by decide, by decide, by decide⟩

/-- C4 amended: in state `COLLECTING`, when the direct validator rejects
the answer for the (non-`complex`) field at the cursor, the engine replies
`validation_error` with the validator's specific reason and re-asks the
same field's question, leaving state, cursor and accumulated answers
unchanged (only the conversation log gains the user turn).  For the
`email_address` field and input `"not-an-email"` the reason is "Please
provide a valid email address (like name@example.com)". -/
theorem claim4_amended (disc : Option DiscoveryResult) (llmv : Option LLMValidation)
    (now : Int) (msg : String) (s : Session) (g : GovForm) (field : Field)
    (hstate : s.state = "COLLECTING")
    (hg : s.verifiedFormStructure = some g)
    (hfield : g.verified_fields.get? s.currentField = some field)
    (hnc : (field.type == "complex") = false)
    (hinvalid : (validateFieldInput field msg).valid = false) :
    (processUserMessage disc llmv now msg s).1 =
      Response.validationError (validateFieldInput field msg).error field.question ∧
    (processUserMessage disc llmv now msg s).2.state = s.state ∧
    (processUserMessage disc llmv now msg s).2.currentField = s.currentField ∧
    (processUserMessage disc llmv now msg s).2.formData = s.formData := by
  have hkey : processUserMessage disc llmv now msg s =
      (Response.validationError (validateFieldInput field msg).error field.question,
        addMessage s "user" msg now) := by
    rw [processUserMessage_collecting disc llmv now msg s hstate]
    exact collectingStep_invalid llmv now msg (addMessage s "user" msg now) g field
      (by rw [addMessage_verifiedFormStructure, hg])
      (by rw [addMessage_currentField]; exact hfield) hnc hinvalid
  rw [hkey]
  exact ⟨rfl, addMessage_state s "user" msg now, addMessage_currentField s "user" msg now,
    addMessage_formData s "user" msg now⟩

/-- Witness for C4: the `pan_card_application` session collecting
`email_address`, given `"not-an-email"`. -/
theorem claim4_witness :
    (processUserMessage none none 7 "not-an-email" sessionAtEmailField).1 =
      Response.validationError
        (validateFieldInput emailAddressField "not-an-email").error
        emailAddressField.question ∧
    (processUserMessage none none 7 "not-an-email" sessionAtEmailField).2.currentField =
      sessionAtEmailField.currentField :=
  ⟨(claim4_amended none none 7 "not-an-email" sessionAtEmailField panCardApplicationForm
      emailAddressField rfl rfl (by decide) (by decide) (by decide)).1,
   (claim4_amended none none 7 "not-an-email" sessionAtEmailField panCardApplicationForm
      emailAddressField rfl rfl (by decide) (by decide) (by decide)).2.2.1⟩

/-! ## Cursor-invariant lemmas -/

theorem invB_init_cursor (s : Session) (h : invB s = true)
    (hcond : (s.state == "INIT" || s.state == "FORM_DISCOVERY") = true) :
    s.currentField = 0 := by
  unfold invB at h
  rw [if_pos hcond] at h
  simpa [beq_iff_eq] using h

theorem invB_collecting (s : Session) (h : invB s = true)
    (hstate : s.state = "COLLECTING") :
    ∃ g, s.verifiedFormStructure = some g ∧
      s.currentField < g.verified_fields.length := by
  unfold invB at h
  rw [hstate] at h
  rw [if_neg (by decide), if_pos (by decide)] at h
  cases hv : s.verifiedFormStructure with
  | none => rw [hv] at h; simp at h
  | some g =>
    rw [hv] at h
    exact ⟨g, rfl, of_decide_eq_true h⟩

theorem invB_cursor_le (s : Session) (h : invB s = true) :
    ∀ g, s.verifiedFormStructure = some g →
      s.currentField ≤ g.verified_fields.length := by
  intro g hg
  unfold invB at h
  by_cases hc1 : (s.state == "INIT" || s.state == "FORM_DISCOVERY") = true
  · rw [if_pos hc1] at h
    have : s.currentField = 0 := by simpa [beq_iff_eq] using h
    omega
  · rw [if_neg hc1] at h
    by_cases hc2 : (s.state == "COLLECTING") = true
    · rw [if_pos hc2, hg] at h
      exact Nat.le_of_lt (of_decide_eq_true h)
    · rw [if_neg hc2] at h
      by_cases hc3 : (s.state == "COMPLETE") = true
      · rw [if_pos hc3, hg] at h
        have : s.currentField = g.verified_fields.length := by
          simpa [beq_iff_eq] using h
        omega
      · rw [if_neg hc3] at h
        simp at h

/-- The discovery phase preserves the invariant and leaves the cursor at
its (necessarily zero) value. -/
theorem discoveryStep_inv (disc : Option DiscoveryResult) (now : Int) (s : Session)
    (h : invB s = true)
    (hcond : (s.state == "INIT" || s.state == "FORM_DISCOVERY") = true) :
    invB (discoveryStep disc now s).2 = true ∧
      (discoveryStep disc now s).2.currentField = s.currentField := by
  have hcur : s.currentField = 0 := invB_init_cursor s h hcond
  unfold discoveryStep
  cases disc with
  | none => exact ⟨h, rfl⟩
  | some result =>
    dsimp only
    cases hmid : result.matched_form_id with
    | none =>
      dsimp only
      rw [invB_addMessage, addMessage_currentField]
      exact ⟨h, rfl⟩
    | some fid =>
      dsimp only
      by_cases hemp : (fid.isEmpty = true)
      · rw [if_pos hemp, invB_addMessage, addMessage_currentField]
        exact ⟨h, rfl⟩
      · rw [if_neg hemp]
        cases hlk : lookupForm fid VERIFIED_GOVERNMENT_FORMS with
        | none =>
          dsimp only
          rw [invB_addMessage, addMessage_currentField]
          exact ⟨h, rfl⟩
        | some g =>
          dsimp only
          have hlen : 0 < g.verified_fields.length :=
            registry_fields_nonempty fid g hlk
          cases hget : g.verified_fields.get? 0 with
          | none =>
            exfalso
            have := List.get?_eq_none.mp hget
            omega
          | some f0 =>
            dsimp only
            rw [invB_addMessage, addMessage_currentField]
            constructor
            · unfold invB
              dsimp only
              rw [if_neg (by decide), if_pos (by decide)]
              exact decide_eq_true hlen
            · dsimp only
              omega

/-- Storing an accepted value advances the cursor by exactly one and
preserves the invariant. -/
theorem storeAndAdvance_inv (f : Field) (g : GovForm) (v : String) (now : Int)
    (s : Session) (hstate : s.state = "COLLECTING")
    (hg : s.verifiedFormStructure = some g)
    (hlt : s.currentField < g.verified_fields.length) :
    invB (storeAndAdvance f g v now s).2 = true ∧
      (storeAndAdvance f g v now s).2.currentField = s.currentField + 1 := by
  unfold storeAndAdvance
  simp only [addMessage]
  by_cases hge : s.currentField + 1 ≥ g.verified_fields.length
  · rw [if_pos hge]
    refine ⟨?_, rfl⟩
    unfold invB
    dsimp only
    rw [if_neg (by decide), if_neg (by decide), if_pos (by decide), hg]
    simp only [beq_iff_eq]
    omega
  · rw [if_neg hge]
    have hbody : invB
        { s with formData := setKey s.formData f.name v,
                 currentField := s.currentField + 1,
                 conv := s.conv ++ [("ai", "Thank you! Information recorded.")],
                 lastActivity := now } = true := by
      unfold invB
      dsimp only
      rw [hstate]
      rw [if_neg (by decide), if_pos (by decide), hg]
      exact decide_eq_true (by omega)
    cases hget : g.verified_fields.get? (s.currentField + 1) with
    | some nf => exact ⟨hbody, rfl⟩
    | none => exact ⟨hbody, rfl⟩

/-- The collection phase preserves the invariant and never decreases the
cursor. -/
theorem collectingStep_inv (llmv : Option LLMValidation) (now : Int) (msg : String)
    (s : Session) (h : invB s = true) (hstate : s.state = "COLLECTING") :
    invB (collectingStep llmv now msg s).2 = true ∧
      s.currentField ≤ (collectingStep llmv now msg s).2.currentField := by
  obtain ⟨g, hg, hlt⟩ := invB_collecting s h hstate
  unfold collectingStep
  rw [hg]
  dsimp only
  cases hf : g.verified_fields.get? s.currentField with
  | none => exact ⟨h, Nat.le_refl _⟩
  | some field =>
    dsimp only
    by_cases hcx : (field.type == "complex") = true
    · rw [if_pos hcx]
      cases llmv with
      | none => exact ⟨h, Nat.le_refl _⟩
      | some vr =>
        dsimp only
        by_cases hvv : (vr.valid == false) = true
        · rw [if_pos hvv]
          exact ⟨h, Nat.le_refl _⟩
        · rw [if_neg hvv]
          obtain ⟨hi, hc⟩ := storeAndAdvance_inv field g vr.cleaned_value now s hstate hg hlt
          exact ⟨hi, by omega⟩
    · rw [if_neg hcx]
      by_cases hvv : ((validateFieldInput field msg).valid == false) = true
      · rw [if_pos hvv]
        exact ⟨h, Nat.le_refl _⟩
      · rw [if_neg hvv]
        obtain ⟨hi, hc⟩ := storeAndAdvance_inv field g
          (validateFieldInput field msg).value now s hstate hg hlt
        exact ⟨hi, by omega⟩

/-! ## Claim C1 — the cursor invariant -/

/-- C1 counterexample: the V3 orchestrator `processConversation` applies a
`field_collection` response with no session-state guard, so on a session
already `COMPLETE` (cursor 9 of 9 on the dynamically discovered GST form)
one more such response pushes the cursor to 10 — strictly beyond the bound
schema's field count — refuting "every mutation of the session preserves
0 <= cursor <= fieldCount". -/
theorem claim1_counterexample :
    v3SessionComplete.state = "COMPLETE" ∧
    v3SessionComplete.currentField = 9 ∧
    totalFieldsOf gstFormDetailsV3 = 9 ∧
    v3SessionComplete.dynamicFormDetails = some gstFormDetailsV3 ∧
    (processConversation fieldCollectionResponse v3SessionComplete
        "whatever" 5).1.currentField = 10 :=
  ⟨rfl, rfl, rfl, rfl, by decide⟩

/-- C1 amended: in the LangChain engine (`processUserMessage`), for every
advisory outcome and every message, the standing invariant `invB` (cursor
0 in `INIT`/`FORM_DISCOVERY`, `0 ≤ cursor < fieldCount` while
`COLLECTING`, `cursor = fieldCount` once `COMPLETE`) is preserved by every
step, the cursor never decreases, and it never exceeds the bound schema's
field count; newly created sessions satisfy the invariant (state `INIT`,
cursor 0), and binding a schema starts the cursor at 0.  The V3
orchestrator `processConversation`, by contrast, preserves the bound only
for sessions that are not yet `COMPLETE` (see the counterexample). -/
theorem claim1_amended (disc : Option DiscoveryResult) (llmv : Option LLMValidation)
    (now : Int) (msg : String) (s : Session) (h : invB s = true) :
    invB (processUserMessage disc llmv now msg s).2 = true ∧
    s.currentField ≤ (processUserMessage disc llmv now msg s).2.currentField ∧
    (∀ g, (processUserMessage disc llmv now msg s).2.verifiedFormStructure = some g →
      (processUserMessage disc llmv now msg s).2.currentField ≤ g.verified_fields.length) ∧
    (∀ fresh sid n, invB (newLangChainSession fresh sid n) = true) := by
  have hbase : invB (processUserMessage disc llmv now msg s).2 = true ∧
      s.currentField ≤ (processUserMessage disc llmv now msg s).2.currentField := by
    unfold processUserMessage
    dsimp only
    by_cases hcond : ((addMessage s "user" msg now).state == "INIT" ||
        (addMessage s "user" msg now).state == "FORM_DISCOVERY") = true
    · rw [if_pos hcond]
      obtain ⟨hi, hc⟩ := discoveryStep_inv disc now (addMessage s "user" msg now)
        (by rw [invB_addMessage]; exact h) hcond
      refine ⟨hi, ?_⟩
      rw [hc, addMessage_currentField]
    · rw [if_neg hcond]
      by_cases hcol : ((addMessage s "user" msg now).state == "COLLECTING") = true
      · rw [if_pos hcol]
        obtain ⟨hi, hc⟩ := collectingStep_inv llmv now msg (addMessage s "user" msg now)
          (by rw [invB_addMessage]; exact h)
          (by rwa [beq_iff_eq] at hcol)
        refine ⟨hi, ?_⟩
        rw [addMessage_currentField] at hc
        exact hc
      · rw [if_neg hcol]
        exact ⟨h, Nat.le_refl _⟩
  refine ⟨hbase.1, hbase.2, invB_cursor_le _ hbase.1, ?_⟩
  intro fresh sid n
  rfl

/-- Witness for C1: one accepted answer on the `pan_card_application`
session at field 5. -/
theorem claim1_witness :
    invB ((processUserMessage none none 7 "user@example.com" sessionAtEmailField).2) = true ∧
    sessionAtEmailField.currentField ≤
      (processUserMessage none none 7 "user@example.com" sessionAtEmailField).2.currentField :=
  ⟨(claim1_amended none none 7 "user@example.com" sessionAtEmailField (by decide)).1,
   (claim1_amended none none 7 "user@example.com" sessionAtEmailField (by decide)).2.1⟩

/-! ## Claim C8 — COMPLETE is terminal -/

/-- C8 counterexample: in the V3 path a `COMPLETE` session's next message
can rebind the session back to `COLLECTING` under the same identifier —
here deterministically, via the fallback analyzer: the advisory reply
fails to parse, `analyzeUniversalTextResponse` keyword-matches "I need gst
registration" (its guard checks only for state `COLLECTING`, not
`COMPLETE`), and `processConversation` applies the resulting
`form_discovery` response, setting state `COLLECTING` and cursor 0. -/
theorem claim8_counterexample :
    v3SessionComplete.state = "COMPLETE" ∧
    (processConversation
        (analyzeUniversalTextResponse "" "I need gst registration" v3SessionComplete)
        v3SessionComplete "I need gst registration" 5).1.state = "COLLECTING" ∧
    (processConversation
        (analyzeUniversalTextResponse "" "I need gst registration" v3SessionComplete)
        v3SessionComplete "I need gst registration" 5).1.id = v3SessionComplete.id :=
  ⟨rfl, by decide, by decide⟩

/-- C8 amended: in the LangChain engine (`processUserMessage`), a session
in state `COMPLETE` never transitions back to `COLLECTING`: any further
message leaves the state, cursor and accumulated answers unchanged — but
the engine returns `undefined` (no response payload at all) rather than an
informational response.  The V3 orchestrator does not share this property
(see the counterexample). -/
theorem claim8_amended (disc : Option DiscoveryResult) (llmv : Option LLMValidation)
    (now : Int) (msg : String) (s : Session) (h : s.state = "COMPLETE") :
    (processUserMessage disc llmv now msg s).1 = Response.noResponse ∧
    (processUserMessage disc llmv now msg s).2.state = s.state ∧
    (processUserMessage disc llmv now msg s).2.currentField = s.currentField ∧
    (processUserMessage disc llmv now msg s).2.formData = s.formData := by
  have hkey : processUserMessage disc llmv now msg s =
      (Response.noResponse, addMessage s "user" msg now) := by
    unfold processUserMessage
    dsimp only
    rw [addMessage_state, h]
    rw [if_neg (by decide), if_neg (by decide)]
  rw [hkey]
  exact ⟨rfl, addMessage_state s "user" msg now, addMessage_currentField s "user" msg now,
    addMessage_formData s "user" msg now⟩

/-- Witness for C8: the completed `pan_card_application` session. -/
theorem claim8_witness :
    (processUserMessage none none 7 "hello" sessionComplete).1 = Response.noResponse ∧
    (processUserMessage none none 7 "hello" sessionComplete).2.state =
      sessionComplete.state :=
  ⟨(claim8_amended none none 7 "hello" sessionComplete rfl).1,
   (claim8_amended none none 7 "hello" sessionComplete rfl).2.1⟩

end Inteliform
